import Mathlib

/- Verification of the Wren AI proxy server (src/main.py).

   The relevant Python code is embedded shallowly as pure Lean
   functions: the JSON values handled by Python's json module, the
   dict-merge semantics used to build the upstream payload, Python's
   str.strip and int() builtins, and the four request handlers.  HTTP
   I/O is modelled by passing the upstream's observed response (status
   code, body text, stream chunks) as an explicit argument. -/

namespace WrenProxy

/-- JSON values as produced by Python's json module.  Numbers are
restricted to integers: the proxy never constructs a fractional JSON
number and no property in this development involves one. -/
inductive Json where
  | null : Json
  | bool : Bool → Json
  | num : Int → Json
  | str : String → Json
  | arr : List Json → Json
  | obj : List (String × Json) → Json
deriving Repr

/-- Lookup in a Python dict modelled as an insertion-ordered association
list with unique keys. -/
def dictGet (d : List (String × Json)) (k : String) : Option Json :=
  match d with
  | [] => none
  | (k', v) :: rest => if k' = k then some v else dictGet rest k

/-- Single-key insertion into a Python dict: overwrite in place when the
key exists (Python dicts keep the first-insertion position), append
otherwise. -/
def dictInsert (d : List (String × Json)) (k : String) (v : Json) : List (String × Json) :=
  match d with
  | [] => [(k, v)]
  | (k', v') :: rest => if k' = k then (k, v) :: rest else (k', v') :: dictInsert rest k v

/-- Whitespace characters stripped by Python's str.strip (ASCII range). -/
def isPySpace (c : Char) : Bool :=
  c = ' ' || c = '\t' || c = '\n' || c = '\r' || c = Char.ofNat 11 || c = Char.ofNat 12

/-- Python str.strip(): remove leading and trailing whitespace. -/
def pyStrip (s : String) : String :=
  String.mk (((s.data.dropWhile isPySpace).reverse.dropWhile isPySpace).reverse)

/-- Digit part of a Python int literal after its first character:
digits, with single underscores allowed only between digits. -/
def pyDigitsRest : List Char → Bool
  | [] => true
  | ['_'] => false
  | '_' :: c :: rest => c.isDigit && pyDigitsRest rest
  | c :: rest => c.isDigit && pyDigitsRest rest

/-- Digit sequence accepted by Python's int(): non-empty and starting
with a digit. -/
def pyDigitsOk : List Char → Bool
  | [] => false
  | c :: rest => c.isDigit && pyDigitsRest rest

/-- Numeric value of a list of decimal digits. -/
def digitsToNat (cs : List Char) : Nat :=
  List.foldl (fun acc c => acc * 10 + (c.toNat - 48)) 0 cs

/-- Python's int(str) builtin: strips whitespace, then accepts an
optional sign followed by a digit sequence (single underscores allowed
between digits).  Returns none exactly where Python raises ValueError. -/
def pyInt (s : String) : Option Int :=
  match (pyStrip s).data with
  | '+' :: rest =>
      if pyDigitsOk rest then
        some (Int.ofNat (digitsToNat (rest.filter (fun c => c ≠ '_'))))
      else none
  | '-' :: rest =>
      if pyDigitsOk rest then
        some (-(Int.ofNat (digitsToNat (rest.filter (fun c => c ≠ '_')))))
      else none
  | rest =>
      if pyDigitsOk rest then
        some (Int.ofNat (digitsToNat (rest.filter (fun c => c ≠ '_'))))
      else none

/-- Insignificant whitespace of the JSON grammar. -/
def isJsonWs (c : Char) : Bool :=
  c = ' ' || c = '\t' || c = '\n' || c = '\r'

/-- Skip insignificant JSON whitespace. -/
def skipWs (s : List Char) : List Char := s.dropWhile isJsonWs

/-- Value of one hexadecimal digit. -/
def hexVal (c : Char) : Option Nat :=
  if 48 ≤ c.toNat && c.toNat ≤ 57 then some (c.toNat - 48)
  else if 97 ≤ c.toNat && c.toNat ≤ 102 then some (c.toNat - 87)
  else if 65 ≤ c.toNat && c.toNat ≤ 70 then some (c.toNat - 55)
  else none

/-- Single-character escape sequences of the JSON grammar. -/
def escChar : Char → Option Char
  | '\"' => some '\"'
  | '\\' => some '\\'
  | '/' => some '/'
  | 'b' => some (Char.ofNat 8)
  | 'f' => some (Char.ofNat 12)
  | 'n' => some '\n'
  | 'r' => some '\r'
  | 't' => some '\t'
  | _ => none

/-- Fuel-bounded worker for parseStringBody.  Every recursive call
consumes at least one input character, so fuel larger than the input
length never runs out. -/
def parseStringBodyAux : Nat → List Char → Option (List Char × List Char)
  | 0, _ => none
  | _, [] => none
  | _, '\"' :: rest => some ([], rest)
  | Nat.succ fuel, '\\' :: 'u' :: h1 :: h2 :: h3 :: h4 :: rest => do
      let a ← hexVal h1
      let b ← hexVal h2
      let c ← hexVal h3
      let d ← hexVal h4
      let code := ((a * 16 + b) * 16 + c) * 16 + d
      if 55296 ≤ code ∧ code ≤ 56319 then
        match rest with
        | '\\' :: 'u' :: g1 :: g2 :: g3 :: g4 :: rest2 => do
            let a2 ← hexVal g1
            let b2 ← hexVal g2
            let c2 ← hexVal g3
            let d2 ← hexVal g4
            let lo := ((a2 * 16 + b2) * 16 + c2) * 16 + d2
            if 56320 ≤ lo ∧ lo ≤ 57343 then
              let cp := 65536 + (code - 55296) * 1024 + (lo - 56320)
              let p ← parseStringBodyAux fuel rest2
              some (Char.ofNat cp :: p.1, p.2)
            else
              let p ← parseStringBodyAux fuel rest
              some (Char.ofNat code :: p.1, p.2)
        | _ => do
            let p ← parseStringBodyAux fuel rest
            some (Char.ofNat code :: p.1, p.2)
      else do
        let p ← parseStringBodyAux fuel rest
        some (Char.ofNat code :: p.1, p.2)
  | Nat.succ fuel, '\\' :: e :: rest =>
      match escChar e with
      | some c => (parseStringBodyAux fuel rest).map (fun p => (c :: p.1, p.2))
      | none => none
  | Nat.succ fuel, c :: rest =>
      if c.toNat < 32 then none
      else (parseStringBodyAux fuel rest).map (fun p => (c :: p.1, p.2))

/-- Parse the body of a JSON string literal (opening quote already
consumed), returning the decoded characters and the remaining input.
Surrogate pairs in \u escapes are combined as Python's json.loads does;
a lone surrogate, unrepresentable as a Lean scalar value, degrades to
the null character. -/
def parseStringBody (s : List Char) : Option (List Char × List Char) :=
  parseStringBodyAux (s.length + 1) s

/-- Parse a JSON number literal.  The JSON grammar is followed for the
integer part (optional minus, no leading zeros); a fraction or exponent
would denote a Python float, which is outside this model and rejected. -/
def parseNumber (s : List Char) : Option (Json × List Char) :=
  let signed := match s with
    | '-' :: r => (true, r)
    | _ => (false, s)
  match signed.2 with
  | [] => none
  | c :: _ =>
    if ¬ c.isDigit then none
    else
      let ds := signed.2.takeWhile Char.isDigit
      let rest := signed.2.dropWhile Char.isDigit
      if 1 < ds.length ∧ ds.headD 'x' = '0' then none
      else
        match rest with
        | '.' :: _ => none
        | 'e' :: _ => none
        | 'E' :: _ => none
        | _ =>
          let n : Int := Int.ofNat (digitsToNat ds)
          some (Json.num (if signed.1 then -n else n), rest)

/-- Collapse duplicate keys of a parsed JSON object the way Python dict
construction does: last value wins, first-insertion position kept. -/
def dedupMembers (ms : List (String × Json)) : List (String × Json) :=
  List.foldl (fun d kv => dictInsert d kv.1 kv.2) [] ms

mutual

/-- Fuel-bounded JSON value parser mirroring Python json.loads
(numbers restricted to integers). -/
def parseValue : Nat → List Char → Option (Json × List Char)
  | 0, _ => none
  | Nat.succ fuel, s =>
    match skipWs s with
    | 'n' :: 'u' :: 'l' :: 'l' :: r => some (Json.null, r)
    | 't' :: 'r' :: 'u' :: 'e' :: r => some (Json.bool true, r)
    | 'f' :: 'a' :: 'l' :: 's' :: 'e' :: r => some (Json.bool false, r)
    | '\"' :: r => (parseStringBody r).map (fun p => (Json.str (String.mk p.1), p.2))
    | '[' :: r =>
        (match skipWs r with
         | ']' :: r2 => some (Json.arr [], r2)
         | r2 => (parseItems fuel r2).map (fun p => (Json.arr p.1, p.2)))
    | '\x7b' :: r =>
        (match skipWs r with
         | '\x7d' :: r2 => some (Json.obj [], r2)
         | r2 => (parseMembers fuel r2).map (fun p => (Json.obj (dedupMembers p.1), p.2)))
    | s1 => parseNumber s1

/-- Fuel-bounded parser for the comma-separated items of a JSON array,
up to and including the closing bracket. -/
def parseItems : Nat → List Char → Option (List Json × List Char)
  | 0, _ => none
  | Nat.succ fuel, s => do
      let p ← parseValue fuel s
      match skipWs p.2 with
      | ',' :: r2 => do
          let q ← parseItems fuel r2
          some (p.1 :: q.1, q.2)
      | ']' :: r2 => some ([p.1], r2)
      | _ => none

/-- Fuel-bounded parser for the comma-separated members of a JSON
object, up to and including the closing brace. -/
def parseMembers : Nat → List Char → Option (List (String × Json) × List Char)
  | 0, _ => none
  | Nat.succ fuel, s =>
    match skipWs s with
    | '\"' :: r => do
        let kp ← parseStringBody r
        match skipWs kp.2 with
        | ':' :: r3 => do
            let vp ← parseValue fuel r3
            match skipWs vp.2 with
            | ',' :: r5 => do
                let mp ← parseMembers fuel r5
                some ((String.mk kp.1, vp.1) :: mp.1, mp.2)
            | '\x7d' :: r5 => some ([(String.mk kp.1, vp.1)], r5)
            | _ => none
        | _ => none
    | _ => none

end

/-- Python json.loads: parse a complete JSON document, allowing trailing
whitespace only.  Returns none exactly where Python raises
JSONDecodeError (modulo the integer-only number model). -/
def json_loads (s : String) : Option Json :=
  match parseValue (2 * s.length + 2) s.data with
  | some (v, rest) => if skipWs rest = [] then some v else none
  | none => none

/-- Lower-case hexadecimal digit. -/
def hexDigitChar (n : Nat) : Char :=
  if n < 10 then Char.ofNat (48 + n) else Char.ofNat (87 + n)

/-- Four-digit hexadecimal rendering used by \u escapes. -/
def hex4 (n : Nat) : String :=
  String.mk [hexDigitChar (n / 4096 % 16), hexDigitChar (n / 256 % 16),
             hexDigitChar (n / 16 % 16), hexDigitChar (n % 16)]

/-- Escape one character as Python json.dumps does with its default
ensure_ascii=True: short escapes for the common controls, \uXXXX for
other controls and all non-ASCII (surrogate pairs beyond the BMP). -/
def jsonEscapeChar (c : Char) : String :=
  if c = '\"' then "\\\""
  else if c = '\\' then "\\\\"
  else if c = '\n' then "\\n"
  else if c = '\r' then "\\r"
  else if c = '\t' then "\\t"
  else if c = Char.ofNat 8 then "\\b"
  else if c = Char.ofNat 12 then "\\f"
  else if c.toNat < 32 then "\\u" ++ hex4 c.toNat
  else if c.toNat < 127 then String.singleton c
  else if c.toNat < 65536 then "\\u" ++ hex4 c.toNat
  else
    let v := c.toNat - 65536
    "\\u" ++ hex4 (55296 + v / 1024) ++ "\\u" ++ hex4 (56320 + v % 1024)

/-- Escape a string for JSON output. -/
def jsonEscape (s : String) : String :=
  String.join (s.data.map jsonEscapeChar)

mutual

/-- Python json.dumps with its default separators (", " and ": "). -/
def json_dumps : Json → String
  | Json.null => "null"
  | Json.bool true => "true"
  | Json.bool false => "false"
  | Json.num n => toString n
  | Json.str s => "\"" ++ jsonEscape s ++ "\""
  | Json.arr xs => "[" ++ dumpsList xs ++ "]"
  | Json.obj ms => "\x7b" ++ dumpsMembers ms ++ "\x7d"

/-- Comma-separated rendering of array items (compact form). -/
def dumpsList : List Json → String
  | [] => ""
  | [x] => json_dumps x
  | x :: y :: rest => json_dumps x ++ ", " ++ dumpsList (y :: rest)

/-- Comma-separated rendering of object members (compact form). -/
def dumpsMembers : List (String × Json) → String
  | [] => ""
  | [(k, v)] => "\"" ++ jsonEscape k ++ "\": " ++ json_dumps v
  | (k, v) :: m :: rest =>
      "\"" ++ jsonEscape k ++ "\": " ++ json_dumps v ++ ", " ++ dumpsMembers (m :: rest)

end

/-- Spaces used for indented JSON output. -/
def spaces (n : Nat) : String := String.mk (List.replicate n ' ')

mutual

/-- Python json.dumps with indent=2: current indentation level ind,
containers spread over lines, items separated by ",\n". -/
def json_dumps_indent (ind : Nat) : Json → String
  | Json.arr [] => "[]"
  | Json.arr (x :: xs) =>
      "[\n" ++ dumpsIndentList (ind + 2) (x :: xs) ++ "\n" ++ spaces ind ++ "]"
  | Json.obj [] => "\x7b\x7d"
  | Json.obj (m :: ms) =>
      "\x7b\n" ++ dumpsIndentMembers (ind + 2) (m :: ms) ++ "\n" ++ spaces ind ++ "\x7d"
  | v => json_dumps v

/-- Indented rendering of array items, one per line. -/
def dumpsIndentList (ind : Nat) : List Json → String
  | [] => ""
  | [x] => spaces ind ++ json_dumps_indent ind x
  | x :: y :: rest =>
      spaces ind ++ json_dumps_indent ind x ++ ",\n" ++ dumpsIndentList ind (y :: rest)

/-- Indented rendering of object members, one per line. -/
def dumpsIndentMembers (ind : Nat) : List (String × Json) → String
  | [] => ""
  | [(k, v)] => spaces ind ++ "\"" ++ jsonEscape k ++ "\": " ++ json_dumps_indent ind v
  | (k, v) :: m :: rest =>
      spaces ind ++ "\"" ++ jsonEscape k ++ "\": " ++ json_dumps_indent ind v ++ ",\n"
        ++ dumpsIndentMembers ind (m :: rest)

end

/-- Python json.dumps(v, indent=2) as called by the streaming error
path. -/
def json_dumps_indent2 (v : Json) : String := json_dumps_indent 0 v

/-- Base URL of the upstream Wren API (main.py line 11). -/
def WREN_BASE_URL : String := "https://cloud.getwren.ai/api/v1"

/-- Request body accepted by both proxy routes (pydantic model
WrenRequest, main.py lines 25-29).  additional_payload is a JSON
object, modelled as an insertion-ordered association list. -/
structure WrenRequest where
  project_id : Option String := none
  text : Option String := none
  additional_payload : List (String × Json) := []

/-- FastAPI HTTPException: a status code and a detail message. -/
structure HTTPException where
  status_code : Nat
  detail : String
deriving Repr, DecidableEq

/-- Observed upstream response on a non-streaming call: status code and
decoded body text (an empty body reads as the empty string). -/
structure UpstreamResponse where
  status_code : Nat
  text : String

/-- JSON value of the optional text field in the outbound body: pydantic
yields Python None when the field is absent, serialized as JSON null. -/
def optText : Option String → Json
  | none => Json.null
  | some t => Json.str t

/-- Outcome of a proxy handler up to (but not including) the upstream
network call.  internalFault models an exception the handler does not
catch (the AttributeError from dereferencing request_data = None),
which FastAPI turns into a plain 500 response; validationError models a
raised HTTPException; upstreamCall carries the URL and JSON payload of
the outbound request the handler proceeds to make. -/
inductive HandlerStep where
  | internalFault : Nat → HandlerStep
  | validationError : HTTPException → HandlerStep
  | upstreamCall : String → List (String × Json) → HandlerStep
deriving Repr

/-- Validation and payload construction of POST /api/wren-call/{path}
(main.py handle_wren_query, lines 131-157), up to the outbound call.
request_data = none models a request carrying no JSON body: FastAPI
passes None for the defaulted body parameter, and
request_data.project_id raises AttributeError, an unhandled exception
surfacing as a plain 500 response. -/
def handle_wren_query (endpoint_path : String) (request_data : Option WrenRequest) :
    HandlerStep :=
  match request_data with
  | none => HandlerStep.internalFault 500
  | some rd =>
    match rd.project_id with
    | none => HandlerStep.validationError ⟨400, "project_id is required in the request body."⟩
    | some pid =>
      if pyStrip pid = "" then
        HandlerStep.validationError ⟨400, "project_id is required in the request body."⟩
      else
        match pyInt (pyStrip pid) with
        | none => HandlerStep.validationError ⟨400, "project_id must be a valid integer."⟩
        | some project_id_int =>
          HandlerStep.upstreamCall (WREN_BASE_URL ++ "/" ++ endpoint_path)
            (dictInsert
              (List.foldl (fun d kv => dictInsert d kv.1 kv.2)
                [("question", optText rd.text), ("text", optText rd.text)]
                rd.additional_payload)
              "projectId" (Json.num project_id_int))

/-- Validation and payload construction of POST /api/stream-call/{path}
(main.py handle_wren_streaming_query, lines 217-242), up to the
outbound streaming call.  The source duplicates the unary handler's
validation and payload code verbatim; the duplication is kept here. -/
def handle_wren_streaming_query (endpoint_path : String)
    (request_data : Option WrenRequest) : HandlerStep :=
  match request_data with
  | none => HandlerStep.internalFault 500
  | some rd =>
    match rd.project_id with
    | none => HandlerStep.validationError ⟨400, "project_id is required in the request body."⟩
    | some pid =>
      if pyStrip pid = "" then
        HandlerStep.validationError ⟨400, "project_id is required in the request body."⟩
      else
        match pyInt (pyStrip pid) with
        | none => HandlerStep.validationError ⟨400, "project_id must be a valid integer."⟩
        | some project_id_int =>
          HandlerStep.upstreamCall (WREN_BASE_URL ++ "/" ++ endpoint_path)
            (dictInsert
              (List.foldl (fun d kv => dictInsert d kv.1 kv.2)
                [("question", optText rd.text), ("text", optText rd.text)]
                rd.additional_payload)
              "projectId" (Json.num project_id_int))

/-- Placeholder for Python's str(e) on a json.JSONDecodeError raised by
response.json(); no property below depends on this text. -/
def strOfJsonDecodeError : String := "Expecting value"

/-- Outcome of async_wren_call (main.py lines 46-90) given the observed
upstream response: everything from raise_for_status on.  httpx's
raise_for_status raises HTTPStatusError for every non-2xx status; a
2xx body that is neither empty nor valid JSON makes response.json()
raise, which the final generic handler turns into a 500. -/
def async_wren_call (method : String) (response : UpstreamResponse) :
    Except HTTPException Json :=
  if 200 ≤ response.status_code ∧ response.status_code < 300 then
    if response.status_code = 204 ∨ response.text = "" then
      Except.ok (Json.obj [("message", Json.str "Operation successful, no content returned.")])
    else
      match json_loads response.text with
      | some body => Except.ok body
      | none => Except.error ⟨500, "內部伺服器錯誤: " ++ strOfJsonDecodeError⟩
  else
    let error_content := response.text
    let display_detail :=
      match json_loads response.text with
      | some (Json.obj error_data) =>
          (match dictGet error_data "detail" with
           | none => error_content
           | some error_detail =>
             match error_detail with
             | Json.obj _ => json_dumps error_detail
             | Json.arr _ => json_dumps error_detail
             | Json.str s => s
             | Json.bool true => "True"
             | Json.bool false => "False"
             | Json.null => "None"
             | Json.num n => toString n)
      | some _ => error_content
      | none => error_content
    Except.error ⟨response.status_code,
      "Wren API Request Failed (Method: " ++ method ++ ", Status: "
        ++ toString response.status_code ++ "): " ++ display_detail⟩

/-- Outcome of GET /api/validate-key (main.py lines 109-125) given the
upstream response to GET {base}/projects/{project_id}. -/
def validate_api_key_and_project (response : UpstreamResponse) :
    Except HTTPException Json :=
  if 200 ≤ response.status_code ∧ response.status_code < 300 then
    match json_loads response.text with
    | some body => Except.ok body
    | none => Except.error ⟨500, "內部伺服器錯誤: " ++ strOfJsonDecodeError⟩
  else if response.status_code = 401 then
    Except.error ⟨401, "API Key 驗證失敗或無效。"⟩
  else if response.status_code = 403 then
    Except.error ⟨403, "API Key 無權限訪問此 Project ID。"⟩
  else if response.status_code = 404 then
    Except.error ⟨404, "Project ID 不存在或 Key 無法存取。"⟩
  else
    Except.error ⟨response.status_code, "Wren API 請求失敗: " ++ response.text⟩

/-- Observed behaviour of the upstream on a streaming call: status
code, error body text as read by aread(), the byte chunks delivered
before the stream ends, and an optional mid-stream fault (str(e) of an
exception raised while iterating; none when the stream closes
normally). -/
structure StreamingUpstream where
  status_code : Nat
  text : String
  chunks : List String
  fault : Option String := none

/-- Chunks yielded by the generator stream_wren_response (main.py lines
168-213) given the upstream behaviour.  Byte chunks are modelled as
Lean strings (the error frames are .encode("utf-8") of the shown
text). -/
def stream_wren_response (up : StreamingUpstream) : List String :=
  if 400 ≤ up.status_code then
    let display_error :=
      match json_loads up.text with
      | some error_data => json_dumps_indent2 (Json.obj [("error", error_data)])
      | none => "\x7b\"error\": \"" ++ up.text ++ "\"\x7d"
    ["event: error\ndata: " ++ display_error ++ "\n\n"]
  else
    match up.fault with
    | none => up.chunks
    | some e => up.chunks ++ ["event: error\ndata: Internal Server Error: " ++ e ++ "\n\n"]

/-- FastAPI StreamingResponse as returned by the streaming route:
default status 200, the given media type, and the generator's chunks
as body. -/
structure StreamingResponseModel where
  status_code : Nat
  media_type : String
  body_chunks : List String
deriving Repr

/-- Full outcome of POST /api/stream-call/{path}. -/
inductive StreamCallResult where
  | fault : Nat → StreamCallResult
  | httpError : HTTPException → StreamCallResult
  | response : StreamingResponseModel → StreamCallResult
deriving Repr

/-- Composition of the streaming route (main.py lines 217-247):
validation as in handle_wren_streaming_query, then a StreamingResponse
with media_type text/event-stream over stream_wren_response. -/
def handle_wren_streaming_query_response (endpoint_path : String)
    (request_data : Option WrenRequest) (up : StreamingUpstream) : StreamCallResult :=
  match handle_wren_streaming_query endpoint_path request_data with
  | HandlerStep.internalFault c => StreamCallResult.fault c
  | HandlerStep.validationError e => StreamCallResult.httpError e
  | HandlerStep.upstreamCall _ _ =>
      StreamCallResult.response ⟨200, "text/event-stream", stream_wren_response up⟩

/-! Helper lemmas about the dict model. -/

/-- Looking up the key just inserted yields the inserted value. -/
theorem dictGet_dictInsert_self (d : List (String × Json)) (k : String) (v : Json) :
    dictGet (dictInsert d k v) k = some v := by
  induction d with
  | nil => simp [dictInsert, dictGet]
  | cons p rest ih =>
    obtain ⟨k', v'⟩ := p
    by_cases h : k' = k
    · simp [dictInsert, dictGet, h]
    · simp [dictInsert, dictGet, h, ih]

/-- Inserting one key leaves every other key's binding unchanged. -/
theorem dictGet_dictInsert_ne (d : List (String × Json)) (k k' : String) (v : Json)
    (h : k' ≠ k) : dictGet (dictInsert d k v) k' = dictGet d k' := by
  induction d with
  | nil => simp [dictInsert, dictGet, Ne.symm h]
  | cons p rest ih =>
    obtain ⟨k'', v''⟩ := p
    by_cases hk : k'' = k
    · subst hk
      simp [dictInsert, dictGet, Ne.symm h]
    · by_cases hk' : k'' = k'
      · simp [dictInsert, dictGet, hk, hk', h]
      · simp [dictInsert, dictGet, hk, hk', ih]

/-- Python's int() rejects the empty string. -/
theorem pyInt_empty : pyInt "" = none := rfl

/-! Claim theorems. -/

/-- C1: for every ProxyRequest whose projectIdentifier parses as an
integer, both relays build the outbound payload as the union of
(question: text, text: text) with extraFields, and then set projectId
to the parsed integer, so that the projectId key overrides any
same-named key supplied in extraFields (last-write-wins, applied after
the merge). -/
theorem C1_payload_merge_override (endpoint_path : String) (rd : WrenRequest)
    (pid : String) (n : Int)
    (hpid : rd.project_id = some pid)
    (hint : pyInt (pyStrip pid) = some n) :
    handle_wren_query endpoint_path (some rd) =
      HandlerStep.upstreamCall (WREN_BASE_URL ++ "/" ++ endpoint_path)
        (dictInsert
          (List.foldl (fun d kv => dictInsert d kv.1 kv.2)
            [("question", optText rd.text), ("text", optText rd.text)] rd.additional_payload)
          "projectId" (Json.num n)) ∧
    handle_wren_streaming_query endpoint_path (some rd) =
      HandlerStep.upstreamCall (WREN_BASE_URL ++ "/" ++ endpoint_path)
        (dictInsert
          (List.foldl (fun d kv => dictInsert d kv.1 kv.2)
            [("question", optText rd.text), ("text", optText rd.text)] rd.additional_payload)
          "projectId" (Json.num n)) ∧
    dictGet
        (dictInsert
          (List.foldl (fun d kv => dictInsert d kv.1 kv.2)
            [("question", optText rd.text), ("text", optText rd.text)] rd.additional_payload)
          "projectId" (Json.num n)) "projectId" = some (Json.num n) ∧
    ∀ k, k ≠ "projectId" →
      dictGet
          (dictInsert
            (List.foldl (fun d kv => dictInsert d kv.1 kv.2)
              [("question", optText rd.text), ("text", optText rd.text)] rd.additional_payload)
            "projectId" (Json.num n)) k =
        dictGet
          (List.foldl (fun d kv => dictInsert d kv.1 kv.2)
            [("question", optText rd.text), ("text", optText rd.text)] rd.additional_payload) k := by
  have hb : ¬ pyStrip pid = "" := by
    intro hb
    rw [hb, pyInt_empty] at hint
    exact Option.noConfusion hint
  refine ⟨?_, ?_, dictGet_dictInsert_self _ _ _, fun k hk => dictGet_dictInsert_ne _ _ _ _ hk⟩
  · simp [handle_wren_query, hpid, hb, hint]
  · simp [handle_wren_streaming_query, hpid, hb, hint]

/-- Witness for C1 at a concrete request whose extraFields already
contain a colliding projectId key. -/
theorem C1_payload_merge_override_witness :
    (WrenRequest.mk (some "11237") (some "hi") [("projectId", Json.num 1)]).project_id =
        some "11237" ∧
    pyInt (pyStrip "11237") = some 11237 ∧
    (handle_wren_query "generate_sql"
        (some (WrenRequest.mk (some "11237") (some "hi") [("projectId", Json.num 1)])) =
      HandlerStep.upstreamCall (WREN_BASE_URL ++ "/" ++ "generate_sql")
        (dictInsert
          (List.foldl (fun d kv => dictInsert d kv.1 kv.2)
            [("question", optText (some "hi")), ("text", optText (some "hi"))]
            [("projectId", Json.num 1)])
          "projectId" (Json.num 11237)) ∧
    handle_wren_streaming_query "generate_sql"
        (some (WrenRequest.mk (some "11237") (some "hi") [("projectId", Json.num 1)])) =
      HandlerStep.upstreamCall (WREN_BASE_URL ++ "/" ++ "generate_sql")
        (dictInsert
          (List.foldl (fun d kv => dictInsert d kv.1 kv.2)
            [("question", optText (some "hi")), ("text", optText (some "hi"))]
            [("projectId", Json.num 1)])
          "projectId" (Json.num 11237)) ∧
    dictGet
        (dictInsert
          (List.foldl (fun d kv => dictInsert d kv.1 kv.2)
            [("question", optText (some "hi")), ("text", optText (some "hi"))]
            [("projectId", Json.num 1)])
          "projectId" (Json.num 11237)) "projectId" = some (Json.num 11237) ∧
    ∀ k, k ≠ "projectId" →
      dictGet
          (dictInsert
            (List.foldl (fun d kv => dictInsert d kv.1 kv.2)
              [("question", optText (some "hi")), ("text", optText (some "hi"))]
              [("projectId", Json.num 1)])
            "projectId" (Json.num 11237)) k =
        dictGet
          (List.foldl (fun d kv => dictInsert d kv.1 kv.2)
            [("question", optText (some "hi")), ("text", optText (some "hi"))]
            [("projectId", Json.num 1)]) k) :=
  ⟨rfl, by decide,
    C1_payload_merge_override "generate_sql"
      (WrenRequest.mk (some "11237") (some "hi") [("projectId", Json.num 1)])
      "11237" 11237 rfl (by decide)⟩

/-- C6: for every streaming upstream response that completes without an
error (status below 400 and no mid-stream fault), the Streaming Relay
forwards exactly the chunks received from upstream, verbatim and in
order, with no injected synthetic error frame. -/
theorem C6_stream_forwards_chunks_verbatim (up : StreamingUpstream)
    (hok : up.status_code < 400) (hclean : up.fault = none) :
    stream_wren_response up = up.chunks := by
  have h : ¬ 400 ≤ up.status_code := by omega
  simp [stream_wren_response, h, hclean]

/-- Witness for C6: an upstream that emits three chunks and closes
normally yields exactly those three chunks. -/
theorem C6_stream_forwards_chunks_verbatim_witness :
    (200 : Nat) < 400 ∧
    stream_wren_response (StreamingUpstream.mk 200 "" ["a", "b", "c"] none) = ["a", "b", "c"] :=
  ⟨by decide,
    C6_stream_forwards_chunks_verbatim (StreamingUpstream.mk 200 "" ["a", "b", "c"] none)
      (by decide) rfl⟩

/-- C8: for every successful upstream response on the unary path with a
204 status or an empty body, the Upstream Client returns the sentinel
success body instead of attempting to parse the empty content as
JSON. -/
theorem C8_no_content_sentinel (method : String) (resp : UpstreamResponse)
    (h2xx : 200 ≤ resp.status_code ∧ resp.status_code < 300)
    (hempty : resp.status_code = 204 ∨ resp.text = "") :
    async_wren_call method resp =
      Except.ok (Json.obj [("message", Json.str "Operation successful, no content returned.")]) := by
  unfold async_wren_call
  rw [if_pos h2xx, if_pos hempty]

/-- Witness for C8 at a 204 response with empty body. -/
theorem C8_no_content_sentinel_witness :
    (200 ≤ 204 ∧ 204 < 300) ∧
    async_wren_call "POST" (UpstreamResponse.mk 204 "") =
      Except.ok (Json.obj [("message", Json.str "Operation successful, no content returned.")]) :=
  ⟨by decide,
    C8_no_content_sentinel "POST" (UpstreamResponse.mk 204 "") (by decide) (Or.inl rfl)⟩

/-- C9: for every ProxyRequest, the Streaming Relay's validation and
payload construction are equivalent to the Unary Relay's: both accept
or reject the same requests with the same validation errors, and when
both accept they construct the same UpstreamPayload. -/
theorem C9_streaming_validation_equiv_unary (endpoint_path : String)
    (request_data : Option WrenRequest) :
    handle_wren_streaming_query endpoint_path request_data =
      handle_wren_query endpoint_path request_data := by
  cases request_data with
  | none => rfl
  | some rd =>
    cases hr : rd.project_id with
    | none => simp [handle_wren_query, handle_wren_streaming_query, hr]
    | some pid =>
      by_cases hb : pyStrip pid = ""
      · simp [handle_wren_query, handle_wren_streaming_query, hr, hb]
      · cases hint : pyInt (pyStrip pid) with
        | none => simp [handle_wren_query, handle_wren_streaming_query, hr, hb, hint]
        | some n => simp [handle_wren_query, handle_wren_streaming_query, hr, hb, hint]

/-- C2: when the upstream streaming endpoint responds with status ≥ 400,
the Streaming Relay's output stream is exactly one synthetic SSE frame
"event: error\ndata: <d>\n\n", where a JSON-parseable error body is
wrapped as an object under an "error" key and a non-JSON body is
wrapped as a string field, while the relay's own HTTP response reports
success (200) with content-type text/event-stream. -/
theorem C2_streaming_error_terminal_frame (endpoint_path : String)
    (request_data : Option WrenRequest) (up : StreamingUpstream)
    (u : String) (p : List (String × Json))
    (hstep : handle_wren_streaming_query endpoint_path request_data =
      HandlerStep.upstreamCall u p)
    (herr : 400 ≤ up.status_code) :
    ∃ d, handle_wren_streaming_query_response endpoint_path request_data up =
        StreamCallResult.response
          (StreamingResponseModel.mk 200 "text/event-stream"
            ["event: error\ndata: " ++ d ++ "\n\n"]) ∧
      ((∃ j, json_loads up.text = some j ∧
          d = json_dumps_indent2 (Json.obj [("error", j)])) ∨
        (json_loads up.text = none ∧
          d = "\x7b\"error\": \"" ++ up.text ++ "\"\x7d")) := by
  simp only [handle_wren_streaming_query_response, hstep]
  simp only [stream_wren_response]
  rw [if_pos herr]
  cases hj : json_loads up.text with
  | none =>
      exact ⟨"\x7b\"error\": \"" ++ up.text ++ "\"\x7d", rfl, Or.inr ⟨rfl, rfl⟩⟩
  | some j =>
      exact ⟨json_dumps_indent2 (Json.obj [("error", j)]), rfl, Or.inl ⟨j, rfl, rfl⟩⟩

/-- Witness for C2: upstream streaming status 500 with JSON body
(detail: boom) yields a 200 text/event-stream response whose single
chunk is the synthetic error frame. -/
theorem C2_streaming_error_terminal_frame_witness :
    handle_wren_streaming_query "stream/ask"
        (some (WrenRequest.mk (some "11237") (some "hi") [])) =
      HandlerStep.upstreamCall (WREN_BASE_URL ++ "/" ++ "stream/ask")
        [("question", Json.str "hi"), ("text", Json.str "hi"), ("projectId", Json.num 11237)] ∧
    (400 : Nat) ≤ 500 ∧
    (∃ d, handle_wren_streaming_query_response "stream/ask"
          (some (WrenRequest.mk (some "11237") (some "hi") []))
          (StreamingUpstream.mk 500 "\x7b\"detail\":\"boom\"\x7d" [] none) =
        StreamCallResult.response
          (StreamingResponseModel.mk 200 "text/event-stream"
            ["event: error\ndata: " ++ d ++ "\n\n"]) ∧
      ((∃ j, json_loads (StreamingUpstream.mk 500 "\x7b\"detail\":\"boom\"\x7d" [] none).text =
            some j ∧ d = json_dumps_indent2 (Json.obj [("error", j)])) ∨
        (json_loads (StreamingUpstream.mk 500 "\x7b\"detail\":\"boom\"\x7d" [] none).text = none ∧
          d = "\x7b\"error\": \""
            ++ (StreamingUpstream.mk 500 "\x7b\"detail\":\"boom\"\x7d" [] none).text
            ++ "\"\x7d"))) :=
  ⟨rfl, by decide,
    C2_streaming_error_terminal_frame "stream/ask"
      (some (WrenRequest.mk (some "11237") (some "hi") []))
      (StreamingUpstream.mk 500 "\x7b\"detail\":\"boom\"\x7d" [] none)
      (WREN_BASE_URL ++ "/" ++ "stream/ask")
      [("question", Json.str "hi"), ("text", Json.str "hi"), ("projectId", Json.num 11237)]
      rfl (by decide)⟩

/-- C3: every non-2xx upstream response on the unary path surfaces as an
error carrying the upstream's own status code and a message of the form
"Wren API Request Failed (Method: M, Status: S): <detail>", where
<detail> is the detail field of the JSON-parsed body (JSON-serialized
when it is a dict or list), falling back to the raw response text when
JSON parsing fails or the detail field is absent. -/
theorem C3_unary_error_status_and_detail (method : String) (resp : UpstreamResponse)
    (h : ¬ (200 ≤ resp.status_code ∧ resp.status_code < 300)) :
    ∃ d, async_wren_call method resp =
        Except.error
          (HTTPException.mk resp.status_code
            ("Wren API Request Failed (Method: " ++ method ++ ", Status: "
              ++ toString resp.status_code ++ "): " ++ d)) ∧
      (json_loads resp.text = none → d = resp.text) ∧
      (∀ fields, json_loads resp.text = some (Json.obj fields) →
        dictGet fields "detail" = none → d = resp.text) ∧
      (∀ fields s, json_loads resp.text = some (Json.obj fields) →
        dictGet fields "detail" = some (Json.str s) → d = s) ∧
      (∀ fields ms, json_loads resp.text = some (Json.obj fields) →
        dictGet fields "detail" = some (Json.obj ms) → d = json_dumps (Json.obj ms)) ∧
      (∀ fields xs, json_loads resp.text = some (Json.obj fields) →
        dictGet fields "detail" = some (Json.arr xs) → d = json_dumps (Json.arr xs)) := by
  unfold async_wren_call
  rw [if_neg h]
  refine ⟨_, rfl, ?_, ?_, ?_, ?_, ?_⟩
  · intro h1; simp only [h1]
  · intro fields h1 h2; simp only [h1, h2]
  · intro fields s h1 h2; simp only [h1, h2]
  · intro fields ms h1 h2; simp only [h1, h2]
  · intro fields xs h1 h2; simp only [h1, h2]

/-- Witness for C3 at a 404 response whose JSON body has a string
detail field. -/
theorem C3_unary_error_status_and_detail_witness :
    ¬ (200 ≤ 404 ∧ 404 < 300) ∧
    (∃ d, async_wren_call "POST" (UpstreamResponse.mk 404 "\x7b\"detail\": \"not found\"\x7d") =
        Except.error
          (HTTPException.mk 404
            ("Wren API Request Failed (Method: " ++ "POST" ++ ", Status: "
              ++ toString (404 : Nat) ++ "): " ++ d)) ∧
      (json_loads "\x7b\"detail\": \"not found\"\x7d" = none →
        d = "\x7b\"detail\": \"not found\"\x7d") ∧
      (∀ fields, json_loads "\x7b\"detail\": \"not found\"\x7d" = some (Json.obj fields) →
        dictGet fields "detail" = none → d = "\x7b\"detail\": \"not found\"\x7d") ∧
      (∀ fields s, json_loads "\x7b\"detail\": \"not found\"\x7d" = some (Json.obj fields) →
        dictGet fields "detail" = some (Json.str s) → d = s) ∧
      (∀ fields ms, json_loads "\x7b\"detail\": \"not found\"\x7d" = some (Json.obj fields) →
        dictGet fields "detail" = some (Json.obj ms) → d = json_dumps (Json.obj ms)) ∧
      (∀ fields xs, json_loads "\x7b\"detail\": \"not found\"\x7d" = some (Json.obj fields) →
        dictGet fields "detail" = some (Json.arr xs) → d = json_dumps (Json.arr xs))) :=
  ⟨by decide,
    C3_unary_error_status_and_detail "POST"
      (UpstreamResponse.mk 404 "\x7b\"detail\": \"not found\"\x7d") (by decide)⟩

/-- C4: both relays reject a missing or blank projectIdentifier with a
400 error stating "project_id is required", reject one that does not
parse as an integer with a 400 error stating "project_id must be a
valid integer", and in both cases short-circuit before any upstream
call is attempted. -/
theorem C4_validation_rejects_before_network (endpoint_path : String) (rd : WrenRequest)
    (h : rd.project_id = none ∨ ∃ s, rd.project_id = some s ∧
      (pyStrip s = "" ∨ pyInt (pyStrip s) = none)) :
    ∃ msg, handle_wren_query endpoint_path (some rd) =
        HandlerStep.validationError (HTTPException.mk 400 msg) ∧
      handle_wren_streaming_query endpoint_path (some rd) =
        HandlerStep.validationError (HTTPException.mk 400 msg) ∧
      ((rd.project_id = none ∨ ∃ s, rd.project_id = some s ∧ pyStrip s = "") →
        msg = "project_id is required in the request body.") ∧
      ((∃ s, rd.project_id = some s ∧ pyStrip s ≠ "" ∧ pyInt (pyStrip s) = none) →
        msg = "project_id must be a valid integer.") ∧
      (∀ u p, handle_wren_query endpoint_path (some rd) ≠ HandlerStep.upstreamCall u p) ∧
      (∀ u p, handle_wren_streaming_query endpoint_path (some rd) ≠
        HandlerStep.upstreamCall u p) := by
  rcases h with hnone | ⟨s, hs, hcase⟩
  · refine ⟨"project_id is required in the request body.", ?_, ?_, fun _ => rfl, ?_, ?_, ?_⟩
    · simp [handle_wren_query, hnone]
    · simp [handle_wren_streaming_query, hnone]
    · rintro ⟨s, hs, -, -⟩
      rw [hnone] at hs
      exact Option.noConfusion hs
    · intro u p hc; simp [handle_wren_query, hnone] at hc
    · intro u p hc; simp [handle_wren_streaming_query, hnone] at hc
  · by_cases hblank : pyStrip s = ""
    · refine ⟨"project_id is required in the request body.", ?_, ?_, fun _ => rfl, ?_, ?_, ?_⟩
      · simp [handle_wren_query, hs, hblank]
      · simp [handle_wren_streaming_query, hs, hblank]
      · rintro ⟨s', hs', hnb, -⟩
        rw [hs] at hs'
        injection hs' with hss
        exact (hnb (hss ▸ hblank)).elim
      · intro u p hc; simp [handle_wren_query, hs, hblank] at hc
      · intro u p hc; simp [handle_wren_streaming_query, hs, hblank] at hc
    · have hint : pyInt (pyStrip s) = none := by
        rcases hcase with hb | hi
        · exact absurd hb hblank
        · exact hi
      refine ⟨"project_id must be a valid integer.", ?_, ?_, ?_, fun _ => rfl, ?_, ?_⟩
      · simp [handle_wren_query, hs, hblank, hint]
      · simp [handle_wren_streaming_query, hs, hblank, hint]
      · rintro (hn | ⟨s', hs', hb'⟩)
        · rw [hn] at hs
          exact Option.noConfusion hs
        · rw [hs] at hs'
          injection hs' with hss
          exact absurd (hss ▸ hb') hblank
      · intro u p hc; simp [handle_wren_query, hs, hblank, hint] at hc
      · intro u p hc; simp [handle_wren_streaming_query, hs, hblank, hint] at hc

/-- Witness for C4 at a request whose project_id does not parse as an
integer. -/
theorem C4_validation_rejects_before_network_witness :
    ((WrenRequest.mk (some "abc") none []).project_id = none ∨
      ∃ s, (WrenRequest.mk (some "abc") none []).project_id = some s ∧
        (pyStrip s = "" ∨ pyInt (pyStrip s) = none)) ∧
    (∃ msg, handle_wren_query "generate_sql" (some (WrenRequest.mk (some "abc") none [])) =
        HandlerStep.validationError (HTTPException.mk 400 msg) ∧
      handle_wren_streaming_query "generate_sql" (some (WrenRequest.mk (some "abc") none [])) =
        HandlerStep.validationError (HTTPException.mk 400 msg) ∧
      (((WrenRequest.mk (some "abc") none []).project_id = none ∨
          ∃ s, (WrenRequest.mk (some "abc") none []).project_id = some s ∧ pyStrip s = "") →
        msg = "project_id is required in the request body.") ∧
      ((∃ s, (WrenRequest.mk (some "abc") none []).project_id = some s ∧
          pyStrip s ≠ "" ∧ pyInt (pyStrip s) = none) →
        msg = "project_id must be a valid integer.") ∧
      (∀ u p, handle_wren_query "generate_sql" (some (WrenRequest.mk (some "abc") none [])) ≠
        HandlerStep.upstreamCall u p) ∧
      (∀ u p, handle_wren_streaming_query "generate_sql"
          (some (WrenRequest.mk (some "abc") none [])) ≠
        HandlerStep.upstreamCall u p)) :=
  ⟨Or.inr ⟨"abc", rfl, Or.inr (by decide)⟩,
    C4_validation_rejects_before_network "generate_sql" (WrenRequest.mk (some "abc") none [])
      (Or.inr ⟨"abc", rfl, Or.inr (by decide)⟩)⟩

/-- C5 counterexample: project_id "0" is a non-empty string that is not
convertible to a positive integer, yet both relays accept it and
forward a payload upstream with projectId 0, so the claim's
"convertible to a positive integer" invariant fails on the code. -/
theorem C5_counterexample_zero_forwarded :
    pyInt (pyStrip "0") = some 0 ∧
    ¬ (0 : Int) > 0 ∧
    handle_wren_query "generate_sql" (some (WrenRequest.mk (some "0") (some "hi") [])) =
      HandlerStep.upstreamCall "https://cloud.getwren.ai/api/v1/generate_sql"
        [("question", Json.str "hi"), ("text", Json.str "hi"), ("projectId", Json.num 0)] ∧
    handle_wren_streaming_query "stream/ask" (some (WrenRequest.mk (some "0") (some "hi") [])) =
      HandlerStep.upstreamCall "https://cloud.getwren.ai/api/v1/stream/ask"
        [("question", Json.str "hi"), ("text", Json.str "hi"), ("projectId", Json.num 0)] :=
  ⟨by decide, by decide, rfl, rfl⟩

/-- C5 amended: a projectIdentifier must be a non-empty string
convertible to an integer; one that is absent, blank, or not
convertible to an integer is rejected as a 400 client error and is
never forwarded upstream. -/
theorem C5_amended_non_integer_rejected (endpoint_path : String) (rd : WrenRequest)
    (h : rd.project_id = none ∨ ∃ s, rd.project_id = some s ∧ pyInt (pyStrip s) = none) :
    ∃ e, handle_wren_query endpoint_path (some rd) = HandlerStep.validationError e ∧
      handle_wren_streaming_query endpoint_path (some rd) = HandlerStep.validationError e ∧
      e.status_code = 400 ∧
      (∀ u p, handle_wren_query endpoint_path (some rd) ≠ HandlerStep.upstreamCall u p) ∧
      (∀ u p, handle_wren_streaming_query endpoint_path (some rd) ≠
        HandlerStep.upstreamCall u p) := by
  rcases h with hnone | ⟨s, hs, hint⟩
  · refine ⟨HTTPException.mk 400 "project_id is required in the request body.",
      ?_, ?_, rfl, ?_, ?_⟩
    · simp [handle_wren_query, hnone]
    · simp [handle_wren_streaming_query, hnone]
    · intro u p hc; simp [handle_wren_query, hnone] at hc
    · intro u p hc; simp [handle_wren_streaming_query, hnone] at hc
  · by_cases hblank : pyStrip s = ""
    · refine ⟨HTTPException.mk 400 "project_id is required in the request body.",
        ?_, ?_, rfl, ?_, ?_⟩
      · simp [handle_wren_query, hs, hblank]
      · simp [handle_wren_streaming_query, hs, hblank]
      · intro u p hc; simp [handle_wren_query, hs, hblank] at hc
      · intro u p hc; simp [handle_wren_streaming_query, hs, hblank] at hc
    · refine ⟨HTTPException.mk 400 "project_id must be a valid integer.",
        ?_, ?_, rfl, ?_, ?_⟩
      · simp [handle_wren_query, hs, hblank, hint]
      · simp [handle_wren_streaming_query, hs, hblank, hint]
      · intro u p hc; simp [handle_wren_query, hs, hblank, hint] at hc
      · intro u p hc; simp [handle_wren_streaming_query, hs, hblank, hint] at hc

/-- Witness for the amended C5 at project_id "abc". -/
theorem C5_amended_non_integer_rejected_witness :
    ((WrenRequest.mk (some "abc") none []).project_id = none ∨
      ∃ s, (WrenRequest.mk (some "abc") none []).project_id = some s ∧
        pyInt (pyStrip s) = none) ∧
    (∃ e, handle_wren_query "generate_sql" (some (WrenRequest.mk (some "abc") none [])) =
        HandlerStep.validationError e ∧
      handle_wren_streaming_query "generate_sql" (some (WrenRequest.mk (some "abc") none [])) =
        HandlerStep.validationError e ∧
      e.status_code = 400 ∧
      (∀ u p, handle_wren_query "generate_sql" (some (WrenRequest.mk (some "abc") none [])) ≠
        HandlerStep.upstreamCall u p) ∧
      (∀ u p, handle_wren_streaming_query "generate_sql"
          (some (WrenRequest.mk (some "abc") none [])) ≠
        HandlerStep.upstreamCall u p)) :=
  ⟨Or.inr ⟨"abc", rfl, by decide⟩,
    C5_amended_non_integer_rejected "generate_sql" (WrenRequest.mk (some "abc") none [])
      (Or.inr ⟨"abc", rfl, by decide⟩)⟩

/-- C7: the Key/Project Validator maps upstream 401 to a 401 error with
the credential-invalid message, 403 to a 403 access-denied message, 404
to a 404 project-not-found message, passes any other non-2xx status
through with the upstream's status and body text, and returns the
upstream's JSON body unmodified on 2xx success. -/
theorem C7_validator_status_mapping (resp : UpstreamResponse) :
    (resp.status_code = 401 → validate_api_key_and_project resp =
      Except.error (HTTPException.mk 401 "API Key 驗證失敗或無效。")) ∧
    (resp.status_code = 403 → validate_api_key_and_project resp =
      Except.error (HTTPException.mk 403 "API Key 無權限訪問此 Project ID。")) ∧
    (resp.status_code = 404 → validate_api_key_and_project resp =
      Except.error (HTTPException.mk 404 "Project ID 不存在或 Key 無法存取。")) ∧
    (¬ (200 ≤ resp.status_code ∧ resp.status_code < 300) →
      resp.status_code ≠ 401 → resp.status_code ≠ 403 → resp.status_code ≠ 404 →
      validate_api_key_and_project resp =
        Except.error
          (HTTPException.mk resp.status_code ("Wren API 請求失敗: " ++ resp.text))) ∧
    (∀ j, 200 ≤ resp.status_code → resp.status_code < 300 → json_loads resp.text = some j →
      validate_api_key_and_project resp = Except.ok j) := by
  refine ⟨?_, ?_, ?_, ?_, ?_⟩
  · intro h; simp [validate_api_key_and_project, h]
  · intro h; simp [validate_api_key_and_project, h]
  · intro h; simp [validate_api_key_and_project, h]
  · intro hn h1 h3 h4; simp [validate_api_key_and_project, hn, h1, h3, h4]
  · intro j hge hlt hj; simp [validate_api_key_and_project, hge, hlt, hj]

/-- Witness for C7 across the five status classes. -/
theorem C7_validator_status_mapping_witness :
    validate_api_key_and_project (UpstreamResponse.mk 401 "x") =
      Except.error (HTTPException.mk 401 "API Key 驗證失敗或無效。") ∧
    validate_api_key_and_project (UpstreamResponse.mk 403 "x") =
      Except.error (HTTPException.mk 403 "API Key 無權限訪問此 Project ID。") ∧
    validate_api_key_and_project (UpstreamResponse.mk 404 "x") =
      Except.error (HTTPException.mk 404 "Project ID 不存在或 Key 無法存取。") ∧
    validate_api_key_and_project (UpstreamResponse.mk 418 "teapot") =
      Except.error (HTTPException.mk 418 ("Wren API 請求失敗: " ++ "teapot")) ∧
    validate_api_key_and_project (UpstreamResponse.mk 200 "\x7b\x7d") =
      Except.ok (Json.obj []) :=
  ⟨(C7_validator_status_mapping (UpstreamResponse.mk 401 "x")).1 rfl,
    (C7_validator_status_mapping (UpstreamResponse.mk 403 "x")).2.1 rfl,
    (C7_validator_status_mapping (UpstreamResponse.mk 404 "x")).2.2.1 rfl,
    (C7_validator_status_mapping (UpstreamResponse.mk 418 "teapot")).2.2.2.1
      (by decide) (by decide) (by decide) (by decide),
    (C7_validator_status_mapping (UpstreamResponse.mk 200 "\x7b\x7d")).2.2.2.2
      (Json.obj []) (by decide) (by decide) rfl⟩

/-- C10: when a POST carries no JSON body, the defaulted body parameter
is None and both handlers dereference it before any validation runs, so
the missing-body case surfaces as an unhandled internal fault (500),
not as the 400 "project_id is required" validation error. -/
theorem C10_missing_body_internal_fault (endpoint_path : String) :
    handle_wren_query endpoint_path none = HandlerStep.internalFault 500 ∧
    handle_wren_streaming_query endpoint_path none = HandlerStep.internalFault 500 ∧
    ∀ e : HTTPException, HandlerStep.internalFault 500 ≠ HandlerStep.validationError e :=
  ⟨rfl, rfl, fun _ h => HandlerStep.noConfusion h⟩

end WrenProxy
